import Mathlib

/-!
Verification of the lexi-budget-tracker service worker (lexi-sw.js and its
variants) against its natural-language specification.

The JavaScript event handlers are shallowly embedded as pure Lean functions:
network I/O becomes an explicit parameter (a function from requests to
outcomes), the Cache API becomes an association list keyed by URL, and the
IndexedDB queue becomes a list of records keyed by id. Promise rejection of
an intercepted request (respondWith with a rejected or undefined result)
is modelled by an explicit FetchResult constructor.
-/

namespace LexiSW

/-! ## String helpers

Models of the JavaScript methods String.prototype.includes and
String.prototype.startsWith, used by the fetch and sync handlers. -/

/-- True when the second list is an initial segment of the first. -/
def leadMatch : List Char → List Char → Bool
  | _, [] => true
  | [], _ :: _ => false
  | c :: cs, p :: ps => c = p && leadMatch cs ps

/-- True when the second list occurs contiguously inside the first. -/
def subMatch : List Char → List Char → Bool
  | [], pat => pat.isEmpty
  | c :: cs, pat => leadMatch (c :: cs) pat || subMatch cs pat

/-- JS s.includes(pat). -/
def strIncludes (s pat : String) : Bool := subMatch s.toList pat.toList

/-- JS s.startsWith(pat). -/
def strStarts (s pat : String) : Bool := leadMatch s.toList pat.toList

/-! ## Responses, requests and the Cache API model -/

/-- An HTTP response: status code plus body bytes. -/
structure Response where
  status : Nat
  body : String
deriving Repr, DecidableEq

/-- JS Response.ok: status in the 2xx range. -/
def Response.ok (r : Response) : Bool := decide (200 ≤ r.status ∧ r.status < 300)

/-- An intercepted request: method, URL, Accept header (empty string when
absent, mirroring headers.get of Accept followed by or-empty), and mode. -/
structure Request where
  method : String
  url : String
  accept : String
  mode : String
deriving Repr, DecidableEq

/-- One named cache: entries keyed by URL (the Cache API keys GET requests
by URL; at most one entry per identity, replaced on put). -/
abbrev Cache := List (String × Response)

/-- Cache.prototype.match: for a non-GET request it resolves undefined;
for GET it returns the entry stored under the URL, if any. -/
def cacheMatch (c : Cache) (method url : String) : Option Response :=
  if method = "GET" then (c.find? (fun e => e.1 == url)).map (fun e => e.2) else none

/-- Cache.prototype.put: rejects on a non-GET request (leaving the cache
unchanged); otherwise replaces the entry stored under the URL. -/
def cachePut (c : Cache) (method url : String) (r : Response) : Cache :=
  if method = "GET" then (c.filter (fun e => !(e.1 == url))) ++ [(url, r)] else c

/-- Result of the fetch event from the point of view of the page. -/
inductive FetchResult where
  /-- respondWith resolved with a response. -/
  | response (r : Response)
  /-- respondWith was called but its promise rejected or resolved
  undefined: the page sees a network error, not a response. -/
  | rejected (reason : String)
  /-- The handler returned without calling respondWith: the request goes
  to the network untouched. -/
  | passthrough
deriving Repr, DecidableEq

/-! ## The main fetch handler (src/lexi-sw.js lines 86-122)

The network is a parameter: some response, or none for a rejected fetch.
Navigation branch (Accept containing text/html): network first, the network
response is stored with no status check, fallback to the cached /index.html,
else Promise.reject of no-match. Asset branch: cached entry if present
(the background fetch still updates the cache on status 200), else the
network response, else a rejection. -/

def handleFetch (net : Request → Option Response) (cache : Cache) (req : Request) :
    FetchResult × Cache :=
  if req.method ≠ "GET" then (.passthrough, cache)
  else if strIncludes req.accept "text/html" then
    match net req with
    | some networkResp => (.response networkResp, cachePut cache req.method req.url networkResp)
    | none =>
      match cacheMatch cache "GET" "/index.html" with
      | some r => (.response r, cache)
      | none => (.rejected "no-match", cache)
  else
    match cacheMatch cache req.method req.url, net req with
    | some cached, some networkResp =>
      (.response cached,
        if networkResp.status = 200 then cachePut cache req.method req.url networkResp else cache)
    | some cached, none => (.response cached, cache)
    | none, some networkResp =>
      (.response networkResp,
        if networkResp.status = 200 then cachePut cache req.method req.url networkResp else cache)
    | none, none => (.rejected "no-match", cache)

/-! ## The part_002 fetch handler (src/unnamed/part_002 lines 20-41)

Its guard is mode navigate OR (GET and Accept containing text/html), so a
non-GET request is still intercepted: the else branch calls respondWith on
it. Its cache writes carry the request method, so put on a non-GET request
rejects and the cache is unchanged. The catch branches resolve undefined
when nothing is cached, which the page sees as a network error. -/

def handleFetch002 (net : Request → Option Response) (cache : Cache) (req : Request) :
    FetchResult × Cache :=
  if req.mode = "navigate" || (req.method = "GET" && strIncludes req.accept "text/html") then
    match net req with
    | some res => (.response res, cachePut cache req.method req.url res)
    | none =>
      match cacheMatch cache "GET" "/index.html" with
      | some r => (.response r, cache)
      | none => (.rejected "undefined-response", cache)
  else
    match cacheMatch cache req.method req.url with
    | some r => (.response r, cache)
    | none =>
      match net req with
      | some res => (.response res, cachePut cache req.method req.url res)
      | none => (.rejected "undefined-response", cache)

/-! ## The part_001 default branch (src/unnamed/part_001 lines 76-92)

Network first; a successful navigation response is stored in the shell
cache; on network failure the handler falls back to the cached entry
(searching the shell cache then the runtime cache, as caches.match does),
then to a synthesized offline page for navigations, else to a 504. -/

/-- The synthesized offline page returned by the part_001 default branch. -/
def offlineHtml : Response :=
  { status := 200,
    body := "<!doctype html><html><head><meta charset=\"utf-8\"><title>Offline</title></head><body><h1>Offline</h1><p>Lexi is offline.</p></body></html>" }

def defaultBranch001 (net : Request → Option Response) (shell runtime : Cache) (req : Request) :
    FetchResult × Cache :=
  match net req with
  | some networkResponse =>
    if req.mode = "navigate" && networkResponse.ok then
      (.response networkResponse, cachePut shell req.method req.url networkResponse)
    else (.response networkResponse, shell)
  | none =>
    match cacheMatch shell req.method req.url with
    | some cached => (.response cached, shell)
    | none =>
      match cacheMatch runtime req.method req.url with
      | some cached => (.response cached, shell)
      | none =>
        if req.mode = "navigate" then (.response offlineHtml, shell)
        else (.response { status := 504, body := "" }, shell)

/-! ## The durable queue and the sync flush engine
(src/lexi-sw.js lines 18-66 and 135-220)

A queue item payload is the opaque JS object carried by save-state or
queue-action; the flush engine only reads its url, method, headers and
body fields. Absent fields are none; the JS truthiness test treats the
empty string as absent too. Body strings stand for their serialized JSON
(JSON.stringify of opaque structured data is modelled as the identity on
the serialized form). -/

/-- The fields of a queued payload that the flush engine reads. -/
structure SyncPayload where
  url : Option String
  method : Option String
  headers : Option (List (String × String))
  body : Option String
deriving Repr, DecidableEq

/-- A record of the IndexedDB queue object store (keyPath id). -/
structure QueueItem where
  id : String
  kind : String
  payload : Option SyncPayload
  ts : Nat
deriving Repr, DecidableEq

/-- JS truthiness of an optional string field: undefined, null and the
empty string are falsy. -/
def truthy : Option String → Bool
  | none => false
  | some s => !(s == "")

/-- The flush engine replays an item iff payload, payload.url and
payload.method are all truthy (lexi-sw.js line 193). -/
def hasReplayTarget (it : QueueItem) : Bool :=
  match it.payload with
  | none => false
  | some p => truthy p.url && truthy p.method

/-- The network request the flush engine builds for a replayable item
(lexi-sw.js lines 195-199): declared URL and method; declared headers or
a JSON content type when the headers field is falsy; JSON-stringified
body, or null when the body field is falsy. -/
structure ReplayRequest where
  url : String
  method : String
  headers : List (String × String)
  body : Option String
deriving Repr, DecidableEq

def replayRequestOf (it : QueueItem) : ReplayRequest :=
  match it.payload with
  | none => { url := "", method := "", headers := [], body := none }
  | some p =>
    { url := p.url.getD ""
      method := p.method.getD ""
      headers := p.headers.getD [("Content-Type", "application/json")]
      body := p.body.bind (fun b => if b = "" then none else some b) }

/-- Outcome of one fetch during replay: a rejection with an error
message, or a response. -/
inductive FetchOutcome where
  | err (msg : String)
  | resp (r : Response)
deriving Repr, DecidableEq

/-- True when the replay fetch resolved with an ok response. -/
def FetchOutcome.isOk : FetchOutcome → Bool
  | .err _ => false
  | .resp r => r.ok

/-- True when the replay attempt fails: the fetch rejected, or the
response was not ok (the handler then throws Bad response). -/
def FetchOutcome.failing (o : FetchOutcome) : Bool := !o.isOk

/-- Messages broadcast to clients (notifyClients payloads). -/
inductive SWMessage where
  | swSaved (id : String)
  | swQueued (id : String)
  | syncRegistered (tag : String)
  | syncRegisterFailed (tag : String)
  | itemSuccess (id : String)
  | itemFailed (id : String) (reason : String)
  | itemDequeued (id : String)
  | syncSuccess (detail : String)
  | syncError (reason : String)
deriving Repr, DecidableEq

/-- idbDelete: removes every record stored under the given id. -/
def removeId (q : List QueueItem) (i : String) : List QueueItem :=
  q.filter (fun x => !(x.id == i))

/-- State after a flush step: the queue contents, the broadcast messages
emitted (in order), and the network requests issued (in order). -/
structure StepResult where
  queue : List QueueItem
  msgs : List SWMessage
  reqs : List ReplayRequest
deriving Repr, DecidableEq

/-- One iteration of the flushQueue loop body (lexi-sw.js lines 190-213)
on item it, given the network behaviour and the current queue. With a
replay target: on an ok response the item is deleted and itemSuccess
emitted; on a rejected fetch or a non-ok response the queue is untouched
and itemFailed emitted. Without a replay target: the item is deleted and
itemDequeued emitted, with no network request issued. -/
def processItem (net : ReplayRequest → FetchOutcome) (queue : List QueueItem)
    (it : QueueItem) : StepResult :=
  if hasReplayTarget it then
    match net (replayRequestOf it) with
    | .err msg => ⟨queue, [.itemFailed it.id msg], [replayRequestOf it]⟩
    | .resp r =>
      if r.ok then ⟨removeId queue it.id, [.itemSuccess it.id], [replayRequestOf it]⟩
      else ⟨queue, [.itemFailed it.id "Error: Bad response"], [replayRequestOf it]⟩
  else ⟨removeId queue it.id, [.itemDequeued it.id], []⟩

/-- The flushQueue loop over the snapshot of items taken by idbGetAll,
threading the queue through the per-item steps and concatenating
messages and issued requests. -/
def flushItems (net : ReplayRequest → FetchOutcome) (queue : List QueueItem) :
    List QueueItem → StepResult
  | [] => ⟨queue, [], []⟩
  | it :: rest =>
    let s1 := processItem net queue it
    let s2 := flushItems net s1.queue rest
    ⟨s2.queue, s1.msgs ++ s2.msgs, s1.reqs ++ s2.reqs⟩

/-- flushQueue (lexi-sw.js lines 182-220): on an empty queue it only
reports nothing-to-sync; otherwise it runs the loop over the snapshot of
the queue and appends the aggregate queue-processed message. -/
def flushQueue (net : ReplayRequest → FetchOutcome) (queue : List QueueItem) : StepResult :=
  if queue.isEmpty then ⟨queue, [.syncSuccess "nothing-to-sync"], []⟩
  else
    let s := flushItems net queue queue
    ⟨s.queue, s.msgs ++ [.syncSuccess "queue-processed"], s.reqs⟩

/-- Repeated flush invocations, each against the network behaviour in
force at that invocation; returns the final queue contents. -/
def flushMany : List (ReplayRequest → FetchOutcome) → List QueueItem → List QueueItem
  | [], queue => queue
  | net :: nets, queue => flushMany nets (flushQueue net queue).queue

/-! ## Enqueue via the message handler (lexi-sw.js lines 135-147, 35-44) -/

/-- The id assigned to a save-state item: state- followed by Date.now(). -/
def saveStateId (now : Nat) : String := "state-" ++ toString now

/-- The id assigned to a queue-action item: act- followed by Date.now(),
a dash, and a random integer in 0..9999. -/
def queueActionId (now rand : Nat) : String :=
  "act-" ++ toString now ++ "-" ++ toString rand

/-- The queue item built by the save-state message branch. -/
def mkStateItem (now : Nat) (state : SyncPayload) : QueueItem :=
  { id := saveStateId now, kind := "state", payload := some state, ts := now }

/-- The queue item built by the queue-action message branch. -/
def mkActionItem (now rand : Nat) (action : SyncPayload) : QueueItem :=
  { id := queueActionId now rand, kind := "action", payload := some action, ts := now }

/-- idbAdd uses IDBObjectStore.put with keyPath id: a record whose id is
already present replaces the stored record; otherwise the record is
appended. -/
def idbAdd (store : List QueueItem) (item : QueueItem) : List QueueItem :=
  if store.any (fun x => x.id == item.id) then
    store.map (fun x => if x.id == item.id then item else x)
  else store ++ [item]

/-! ## Sync trigger handling (lexi-sw.js lines 149-153 and 175-180) -/

/-- The sync event handler: a falsy (empty) tag is ignored; a tag
starting with lexi-sync runs flushQueue; any other tag does nothing. -/
def handleSyncEvent (net : ReplayRequest → FetchOutcome) (queue : List QueueItem)
    (tag : String) : List QueueItem × List SWMessage :=
  if tag = "" then (queue, [])
  else if strStarts tag "lexi-sync" then
    let s := flushQueue net queue
    (s.queue, s.msgs)
  else (queue, [])

/-- The registerSync message branch: a falsy tag is ignored; otherwise
the tag is registered as given, and sync-registered is broadcast when
registration succeeds, sync-failed when it rejects. No prefix check is
applied at registration time. -/
def handleRegisterSync (tag : String) (registrationOk : Bool) : List SWMessage :=
  if tag = "" then []
  else if registrationOk then [.syncRegistered tag]
  else [.syncRegisterFailed tag]

/-! ## Derived observations on the flush loop, used to state the claims -/

/-- True when processing the item deletes it from the store: no replay
target, or a replay target whose fetch resolved ok. -/
def removesNow (net : ReplayRequest → FetchOutcome) (it : QueueItem) : Bool :=
  !(hasReplayTarget it) || (net (replayRequestOf it)).isOk

/-- The single per-item message the loop body broadcasts. -/
def itemOutcome (net : ReplayRequest → FetchOutcome) (it : QueueItem) : SWMessage :=
  if hasReplayTarget it then
    match net (replayRequestOf it) with
    | .err msg => .itemFailed it.id msg
    | .resp r => if r.ok then .itemSuccess it.id else .itemFailed it.id "Error: Bad response"
  else .itemDequeued it.id

/-- The network requests the loop body issues for the item: exactly the
replay request when the item is replayable, none otherwise. -/
def itemReqs (it : QueueItem) : List ReplayRequest :=
  if hasReplayTarget it then [replayRequestOf it] else []

/-- Recognizes a sync-item-failed message carrying the given id. -/
def isFailedFor (i : String) : SWMessage → Bool
  | .itemFailed j _ => j == i
  | _ => false

/-- Recognizes a sync-item-success message carrying the given id. -/
def isSuccessFor (i : String) : SWMessage → Bool
  | .itemSuccess j => j == i
  | _ => false

/-- Recognizes a sync-item-dequeued message carrying the given id. -/
def isDequeuedFor (i : String) : SWMessage → Bool
  | .itemDequeued j => j == i
  | _ => false

/-! ## Concrete fixtures for witnesses and counterexamples -/

def payloadA : SyncPayload :=
  { url := some "https://api.example/a", method := some "POST", headers := none, body := some "x" }

def payloadB : SyncPayload :=
  { url := some "https://api.example/b", method := some "POST",
    headers := some [("X-Key", "v")], body := none }

def passivePayload : SyncPayload :=
  { url := none, method := none, headers := none, body := some "snapshot" }

def itA : QueueItem := { id := "act-1-1", kind := "action", payload := some payloadA, ts := 1 }

def itB : QueueItem := { id := "act-2-2", kind := "action", payload := some payloadB, ts := 2 }

def itP : QueueItem := { id := "state-3", kind := "state", payload := some passivePayload, ts := 3 }

def wqueue : List QueueItem := [itA, itB, itP]

/-- A network where every replay fetch rejects. -/
def netDown : ReplayRequest → FetchOutcome := fun _ => .err "TypeError: Failed to fetch"

/-- A network where every replay fetch resolves 200 ok. -/
def netUp : ReplayRequest → FetchOutcome := fun _ => .resp { status := 200, body := "ok" }

/-- A network where the replay target of itB answers ok and every other
fetch rejects. -/
def netMixed : ReplayRequest → FetchOutcome := fun r =>
  if r.url = "https://api.example/b" then .resp { status := 200, body := "ok" }
  else .err "TypeError: Failed to fetch"

def navReq : Request :=
  { method := "GET", url := "/page", accept := "text/html", mode := "navigate" }

def assetReq : Request :=
  { method := "GET", url := "/assets/app.css", accept := "text/css,*/*", mode := "no-cors" }

def postReq : Request :=
  { method := "POST", url := "https://api.example/sync", accept := "application/json", mode := "cors" }

def resp404 : Response := { status := 404, body := "not found" }

def resp200 : Response := { status := 200, body := "fresh" }

def cachedPage : Response := { status := 200, body := "cached page" }

def cachedCss : Response := { status := 200, body := "cached css" }

def statePayloadA : SyncPayload :=
  { url := none, method := none, headers := none, body := some "backup-A" }

def statePayloadB : SyncPayload :=
  { url := none, method := none, headers := none, body := some "backup-B" }

/-! ## Helper lemmas about the flush loop -/

theorem mem_removeId {q : List QueueItem} {i : String} {x : QueueItem} :
    x ∈ removeId q i ↔ x ∈ q ∧ x.id ≠ i := by
  simp [removeId, List.mem_filter]

theorem processItem_queue (net : ReplayRequest → FetchOutcome) (q : List QueueItem)
    (it : QueueItem) :
    (processItem net q it).queue = if removesNow net it then removeId q it.id else q := by
  unfold processItem removesNow
  cases ht : hasReplayTarget it with
  | false => simp
  | true =>
    cases hn : net (replayRequestOf it) with
    | err msg => simp [FetchOutcome.isOk]
    | resp r =>
      cases hr : r.ok with
      | false => simp [FetchOutcome.isOk, hr]
      | true => simp [FetchOutcome.isOk, hr]

theorem processItem_msgs (net : ReplayRequest → FetchOutcome) (q : List QueueItem)
    (it : QueueItem) :
    (processItem net q it).msgs = [itemOutcome net it] := by
  unfold processItem itemOutcome
  cases ht : hasReplayTarget it with
  | false => simp
  | true =>
    cases hn : net (replayRequestOf it) with
    | err msg => simp
    | resp r =>
      cases hr : r.ok with
      | false => simp [hr]
      | true => simp [hr]

theorem processItem_reqs (net : ReplayRequest → FetchOutcome) (q : List QueueItem)
    (it : QueueItem) :
    (processItem net q it).reqs = itemReqs it := by
  unfold processItem itemReqs
  cases ht : hasReplayTarget it with
  | false => simp
  | true =>
    cases hn : net (replayRequestOf it) with
    | err msg => simp
    | resp r =>
      cases hr : r.ok with
      | false => simp [hr]
      | true => simp [hr]

theorem flushItems_msgs (net : ReplayRequest → FetchOutcome) :
    ∀ (items q : List QueueItem),
      (flushItems net q items).msgs = items.map (itemOutcome net) := by
  intro items
  induction items with
  | nil => intro q; rfl
  | cons it rest ih =>
    intro q
    simp only [flushItems, processItem_msgs, ih, List.map_cons, List.singleton_append]

theorem flushItems_reqs (net : ReplayRequest → FetchOutcome) :
    ∀ (items q : List QueueItem),
      (flushItems net q items).reqs = (items.map itemReqs).flatten := by
  intro items
  induction items with
  | nil => intro q; rfl
  | cons it rest ih =>
    intro q
    simp only [flushItems, processItem_reqs, ih, List.map_cons, List.flatten_cons]

theorem flushItems_queue_sub (net : ReplayRequest → FetchOutcome) :
    ∀ (items q : List QueueItem) (x : QueueItem),
      x ∈ (flushItems net q items).queue → x ∈ q := by
  intro items
  induction items with
  | nil => intro q x h; exact h
  | cons it rest ih =>
    intro q x h
    have h1 : x ∈ (processItem net q it).queue := ih _ x h
    rw [processItem_queue] at h1
    by_cases hr : removesNow net it = true
    · rw [if_pos hr] at h1
      exact (mem_removeId.mp h1).1
    · rw [if_neg hr] at h1
      exact h1

theorem flushItems_keeps (net : ReplayRequest → FetchOutcome) :
    ∀ (items q : List QueueItem) (x : QueueItem), x ∈ q →
      (∀ y ∈ items, y.id = x.id → removesNow net y = false) →
      x ∈ (flushItems net q items).queue := by
  intro items
  induction items with
  | nil => intro q x hx _; exact hx
  | cons it rest ih =>
    intro q x hx hall
    have hx1 : x ∈ (processItem net q it).queue := by
      rw [processItem_queue]
      by_cases hr : removesNow net it = true
      · rw [if_pos hr]
        refine mem_removeId.mpr ⟨hx, ?_⟩
        intro hEq
        have := hall it (List.mem_cons_self it rest) hEq.symm
        rw [this] at hr
        exact Bool.false_ne_true hr
      · rw [if_neg hr]
        exact hx
    exact ih _ x hx1 (fun y hy => hall y (List.mem_cons_of_mem it hy))

theorem flushItems_removes (net : ReplayRequest → FetchOutcome) :
    ∀ (items q : List QueueItem) (i : String),
      (∃ y ∈ items, y.id = i ∧ removesNow net y = true) →
      ∀ x ∈ (flushItems net q items).queue, x.id ≠ i := by
  intro items
  induction items with
  | nil =>
    intro q i h
    rcases h with ⟨y, hy, _⟩
    exact absurd hy (List.not_mem_nil y)
  | cons it rest ih =>
    intro q i h x hx
    rcases h with ⟨y, hy, hid, hrem⟩
    rcases List.mem_cons.mp hy with rfl | hyr
    · have hq1 : (processItem net q y).queue = removeId q y.id := by
        rw [processItem_queue, if_pos hrem]
      have hx1 : x ∈ (processItem net q y).queue := flushItems_queue_sub net rest _ x hx
      rw [hq1] at hx1
      have := (mem_removeId.mp hx1).2
      rw [hid] at this
      exact this
    · exact ih _ i ⟨y, hyr, hid, hrem⟩ x hx

theorem flushQueue_eq_of_ne_nil (net : ReplayRequest → FetchOutcome)
    (q : List QueueItem) (h : q ≠ []) :
    flushQueue net q =
      ⟨(flushItems net q q).queue,
       (flushItems net q q).msgs ++ [.syncSuccess "queue-processed"],
       (flushItems net q q).reqs⟩ := by
  cases q with
  | nil => exact absurd rfl h
  | cons a l => rfl

theorem flushQueue_queue_sub (net : ReplayRequest → FetchOutcome)
    (q : List QueueItem) (x : QueueItem) (h : x ∈ (flushQueue net q).queue) : x ∈ q := by
  cases q with
  | nil => exact h
  | cons a l =>
    rw [flushQueue_eq_of_ne_nil net (a :: l) (by simp)] at h
    exact flushItems_queue_sub net (a :: l) (a :: l) x h

/-! ## Message identity and counting lemmas -/

theorem id_of_failed_outcome (net : ReplayRequest → FetchOutcome) (it : QueueItem)
    (i : String) (h : isFailedFor i (itemOutcome net it) = true) : it.id = i := by
  unfold itemOutcome at h
  split at h
  · split at h
    · simpa [isFailedFor] using h
    · split at h
      · simp [isFailedFor] at h
      · simpa [isFailedFor] using h
  · simp [isFailedFor] at h

theorem id_of_success_outcome (net : ReplayRequest → FetchOutcome) (it : QueueItem)
    (i : String) (h : isSuccessFor i (itemOutcome net it) = true) : it.id = i := by
  unfold itemOutcome at h
  split at h
  · split at h
    · simp [isSuccessFor] at h
    · split at h
      · simpa [isSuccessFor] using h
      · simp [isSuccessFor] at h
  · simp [isSuccessFor] at h

theorem id_of_dequeued_outcome (net : ReplayRequest → FetchOutcome) (it : QueueItem)
    (i : String) (h : isDequeuedFor i (itemOutcome net it) = true) : it.id = i := by
  unfold itemOutcome at h
  split at h
  · split at h
    · simp [isDequeuedFor] at h
    · split at h
      · simp [isDequeuedFor] at h
      · simp [isDequeuedFor] at h
  · simpa [isDequeuedFor] using h

theorem itemOutcome_failed_self (net : ReplayRequest → FetchOutcome) (it : QueueItem)
    (htgt : hasReplayTarget it = true)
    (hfail : (net (replayRequestOf it)).failing = true) :
    isFailedFor it.id (itemOutcome net it) = true := by
  unfold itemOutcome
  rw [if_pos htgt]
  unfold FetchOutcome.failing at hfail
  cases hn : net (replayRequestOf it) with
  | err msg => simp [isFailedFor]
  | resp r =>
    rw [hn] at hfail
    have hr : r.ok = false := by
      simpa [FetchOutcome.isOk] using hfail
    simp [hr, isFailedFor]

theorem itemOutcome_success_self (net : ReplayRequest → FetchOutcome) (it : QueueItem)
    (htgt : hasReplayTarget it = true)
    (hok : (net (replayRequestOf it)).isOk = true) :
    isSuccessFor it.id (itemOutcome net it) = true := by
  unfold itemOutcome
  rw [if_pos htgt]
  cases hn : net (replayRequestOf it) with
  | err msg => rw [hn] at hok; simp [FetchOutcome.isOk] at hok
  | resp r =>
    rw [hn] at hok
    have hr : r.ok = true := by simpa [FetchOutcome.isOk] using hok
    simp [hr, isSuccessFor]

theorem itemOutcome_dequeued_self (net : ReplayRequest → FetchOutcome) (it : QueueItem)
    (hnt : hasReplayTarget it = false) :
    isDequeuedFor it.id (itemOutcome net it) = true := by
  unfold itemOutcome
  rw [if_neg (by simp [hnt])]
  simp [isDequeuedFor]

theorem countP_outcomes_zero (net : ReplayRequest → FetchOutcome) (i : String)
    (p : SWMessage → Bool)
    (hp : ∀ y : QueueItem, p (itemOutcome net y) = true → y.id = i) :
    ∀ items : List QueueItem, (∀ y ∈ items, y.id ≠ i) →
      List.countP p (items.map (itemOutcome net)) = 0 := by
  intro items
  induction items with
  | nil => intro _; simp
  | cons z rest ih =>
    intro hall
    rw [List.map_cons]
    have hz : ¬ p (itemOutcome net z) = true := fun ht =>
      hall z (List.mem_cons_self z rest) (hp z ht)
    rw [List.countP_cons_of_neg _ _ hz]
    exact ih (fun y hy => hall y (List.mem_cons_of_mem z hy))

theorem countP_outcomes_one (net : ReplayRequest → FetchOutcome)
    (p : SWMessage → Bool) (it : QueueItem)
    (hp : ∀ y : QueueItem, p (itemOutcome net y) = true → y.id = it.id)
    (hpt : p (itemOutcome net it) = true) :
    ∀ items : List QueueItem, (items.map QueueItem.id).Nodup → it ∈ items →
      List.countP p (items.map (itemOutcome net)) = 1 := by
  intro items
  induction items with
  | nil => intro _ h; exact absurd h (List.not_mem_nil it)
  | cons z rest ih =>
    intro hnd hmem
    rw [List.map_cons] at hnd
    have hz_nin : z.id ∉ rest.map QueueItem.id := (List.nodup_cons.mp hnd).1
    have hnd' : (rest.map QueueItem.id).Nodup := (List.nodup_cons.mp hnd).2
    rw [List.map_cons]
    rcases List.mem_cons.mp hmem with rfl | hmr
    · rw [List.countP_cons_of_pos _ _ hpt]
      have hrest : ∀ y ∈ rest, y.id ≠ it.id := by
        intro y hy hEq
        exact hz_nin (hEq ▸ List.mem_map_of_mem QueueItem.id hy)
      rw [countP_outcomes_zero net it.id p hp rest hrest]
    · have hz : ¬ p (itemOutcome net z) = true := by
        intro ht
        have hzi : z.id = it.id := hp z ht
        exact hz_nin (hzi ▸ List.mem_map_of_mem QueueItem.id hmr)
      rw [List.countP_cons_of_neg _ _ hz]
      exact ih hnd' hmr

theorem countP_flushQueue (net : ReplayRequest → FetchOutcome)
    (p : SWMessage → Bool) (q : List QueueItem) (hq : q ≠ [])
    (hagg : ∀ d, p (.syncSuccess d) = false) :
    List.countP p (flushQueue net q).msgs = List.countP p (q.map (itemOutcome net)) := by
  rw [flushQueue_eq_of_ne_nil net q hq]
  show List.countP p ((flushItems net q q).msgs ++ [.syncSuccess "queue-processed"]) = _
  rw [List.countP_append, flushItems_msgs,
    List.countP_cons_of_neg _ _ (by simp [hagg]), List.countP_nil, Nat.add_zero]

/-- Injectivity of ids over a queue whose id column has no duplicates. -/
theorem eq_of_mem_of_id_eq {queue : List QueueItem}
    (hnd : (queue.map QueueItem.id).Nodup) {x y : QueueItem}
    (hx : x ∈ queue) (hy : y ∈ queue) (h : x.id = y.id) : x = y :=
  List.inj_on_of_nodup_map hnd hx hy h

/-! ## Retention and removal across flushes -/

theorem removesNow_false_of_failing (net : ReplayRequest → FetchOutcome) (it : QueueItem)
    (htgt : hasReplayTarget it = true)
    (hfail : (net (replayRequestOf it)).failing = true) :
    removesNow net it = false := by
  unfold removesNow
  unfold FetchOutcome.failing at hfail
  rw [htgt]
  simpa using hfail

theorem removesNow_true_of_ok (net : ReplayRequest → FetchOutcome) (it : QueueItem)
    (hok : (net (replayRequestOf it)).isOk = true) :
    removesNow net it = true := by
  unfold removesNow
  rw [hok]
  simp

theorem removesNow_true_of_passive (net : ReplayRequest → FetchOutcome) (it : QueueItem)
    (hnt : hasReplayTarget it = false) :
    removesNow net it = true := by
  unfold removesNow
  rw [hnt]
  simp

theorem flushQueue_keeps (net : ReplayRequest → FetchOutcome) (queue : List QueueItem)
    (it : QueueItem) (hmem : it ∈ queue)
    (honly : ∀ y ∈ queue, y.id = it.id → removesNow net y = false) :
    it ∈ (flushQueue net queue).queue := by
  rw [flushQueue_eq_of_ne_nil net queue (List.ne_nil_of_mem hmem)]
  exact flushItems_keeps net queue queue it hmem honly

theorem flushMany_keeps (it : QueueItem) (htgt : hasReplayTarget it = true) :
    ∀ (nets : List (ReplayRequest → FetchOutcome)) (queue : List QueueItem),
      it ∈ queue →
      (∀ y ∈ queue, y.id = it.id → y = it) →
      (∀ n ∈ nets, (n (replayRequestOf it)).failing = true) →
      it ∈ flushMany nets queue := by
  intro nets
  induction nets with
  | nil => intro queue hmem _ _; exact hmem
  | cons n rest ih =>
    intro queue hmem honly hfails
    have hfail : (n (replayRequestOf it)).failing = true :=
      hfails n (List.mem_cons_self n rest)
    have honly' : ∀ y ∈ queue, y.id = it.id → removesNow n y = false := by
      intro y hy hid
      rw [honly y hy hid]
      exact removesNow_false_of_failing n it htgt hfail
    have hkeep : it ∈ (flushQueue n queue).queue := flushQueue_keeps n queue it hmem honly'
    exact ih (flushQueue n queue).queue hkeep
      (fun y hy hid => honly y (flushQueue_queue_sub n queue y hy) hid)
      (fun m hm => hfails m (List.mem_cons_of_mem n hm))

/-! ## Claim theorems for the sync flush engine -/

/-- C1: for a queued item whose payload declares a replay target, if the
network replay during a flush rejects or answers non-ok, then after that
flush the item is still in the durable queue and exactly one
sync-item-failed message carrying its id was emitted; and across any
number of flush invocations under which its replay keeps failing the
item is never removed. -/
theorem c1_failing_replay_item_retained (net : ReplayRequest → FetchOutcome)
    (nets : List (ReplayRequest → FetchOutcome)) (queue : List QueueItem) (it : QueueItem)
    (hnd : (queue.map QueueItem.id).Nodup) (hmem : it ∈ queue)
    (htgt : hasReplayTarget it = true)
    (hfail : (net (replayRequestOf it)).failing = true)
    (hfails : ∀ n ∈ nets, (n (replayRequestOf it)).failing = true) :
    it ∈ (flushQueue net queue).queue ∧
    List.countP (isFailedFor it.id) (flushQueue net queue).msgs = 1 ∧
    it ∈ flushMany nets queue := by
  have honlyEq : ∀ y ∈ queue, y.id = it.id → y = it := fun y hy hid =>
    eq_of_mem_of_id_eq hnd hy hmem hid
  refine ⟨?_, ?_, ?_⟩
  · refine flushQueue_keeps net queue it hmem ?_
    intro y hy hid
    rw [honlyEq y hy hid]
    exact removesNow_false_of_failing net it htgt hfail
  · rw [countP_flushQueue net _ queue (List.ne_nil_of_mem hmem) (fun d => rfl)]
    exact countP_outcomes_one net (isFailedFor it.id) it
      (fun y ht => id_of_failed_outcome net y it.id ht)
      (itemOutcome_failed_self net it htgt hfail) queue hnd hmem
  · exact flushMany_keeps it htgt nets queue hmem honlyEq hfails

/-- C1 witness: with every replay fetch rejecting, the replayable item
itA survives the flush, is reported failed exactly once, and survives a
further flush invocation. -/
theorem c1_witness :
    ((wqueue.map QueueItem.id).Nodup ∧ itA ∈ wqueue ∧ hasReplayTarget itA = true ∧
        (netDown (replayRequestOf itA)).failing = true ∧
        (∀ n ∈ [netDown], (n (replayRequestOf itA)).failing = true)) ∧
      (itA ∈ (flushQueue netDown wqueue).queue ∧
        List.countP (isFailedFor itA.id) (flushQueue netDown wqueue).msgs = 1 ∧
        itA ∈ flushMany [netDown] wqueue) :=
  ⟨⟨by decide, by decide, by decide, by decide,
      by intro n hn; rw [List.mem_singleton] at hn; subst hn; decide⟩,
    c1_failing_replay_item_retained netDown [netDown] wqueue itA (by decide) (by decide)
      (by decide) (by decide)
      (by intro n hn; rw [List.mem_singleton] at hn; subst hn; decide)⟩

/-- C2: for a queued item whose payload declares a replay target, if the
fetch built from the declared URL, method, headers and body answers ok
during a flush, then the flush issued that request, removed the item
from the durable queue, and emitted exactly one sync-item-success
message carrying its id. -/
theorem c2_ok_replay_removes_and_reports (net : ReplayRequest → FetchOutcome)
    (queue : List QueueItem) (it : QueueItem)
    (hnd : (queue.map QueueItem.id).Nodup) (hmem : it ∈ queue)
    (htgt : hasReplayTarget it = true)
    (hok : (net (replayRequestOf it)).isOk = true) :
    (∀ x ∈ (flushQueue net queue).queue, x.id ≠ it.id) ∧
    List.countP (isSuccessFor it.id) (flushQueue net queue).msgs = 1 ∧
    replayRequestOf it ∈ (flushQueue net queue).reqs := by
  have hq : queue ≠ [] := List.ne_nil_of_mem hmem
  refine ⟨?_, ?_, ?_⟩
  · intro x hx
    rw [flushQueue_eq_of_ne_nil net queue hq] at hx
    exact flushItems_removes net queue queue it.id
      ⟨it, hmem, rfl, removesNow_true_of_ok net it hok⟩ x hx
  · rw [countP_flushQueue net _ queue hq (fun d => rfl)]
    exact countP_outcomes_one net (isSuccessFor it.id) it
      (fun y ht => id_of_success_outcome net y it.id ht)
      (itemOutcome_success_self net it htgt hok) queue hnd hmem
  · rw [flushQueue_eq_of_ne_nil net queue hq]
    show replayRequestOf it ∈ (flushItems net queue queue).reqs
    rw [flushItems_reqs]
    refine List.mem_flatten.mpr ⟨itemReqs it, List.mem_map_of_mem itemReqs hmem, ?_⟩
    unfold itemReqs
    rw [if_pos htgt]
    exact List.mem_singleton.mpr rfl

/-- C2 witness: with the network answering 200 ok, the replayable item
itA is removed by the flush, reported successful exactly once, and its
declared replay request was issued. -/
theorem c2_witness :
    ((wqueue.map QueueItem.id).Nodup ∧ itA ∈ wqueue ∧ hasReplayTarget itA = true ∧
        (netUp (replayRequestOf itA)).isOk = true) ∧
      ((∀ x ∈ (flushQueue netUp wqueue).queue, x.id ≠ itA.id) ∧
        List.countP (isSuccessFor itA.id) (flushQueue netUp wqueue).msgs = 1 ∧
        replayRequestOf itA ∈ (flushQueue netUp wqueue).reqs) :=
  ⟨⟨by decide, by decide, by decide, by decide⟩,
    c2_ok_replay_removes_and_reports netUp wqueue itA (by decide) (by decide)
      (by decide) (by decide)⟩

/-- C7: within one flush over any queue, a failing item does not block
the others: if the replay of A fails and the replay of B answers ok,
then the flush emits sync-item-success for B, removes B, and A remains
queued after the pass. -/
theorem c7_failure_does_not_block_others (net : ReplayRequest → FetchOutcome)
    (queue : List QueueItem) (A B : QueueItem)
    (hnd : (queue.map QueueItem.id).Nodup) (hA : A ∈ queue) (hB : B ∈ queue)
    (hAt : hasReplayTarget A = true)
    (hAfail : (net (replayRequestOf A)).failing = true)
    (hBt : hasReplayTarget B = true)
    (hBok : (net (replayRequestOf B)).isOk = true) :
    List.countP (isSuccessFor B.id) (flushQueue net queue).msgs = 1 ∧
    (∀ x ∈ (flushQueue net queue).queue, x.id ≠ B.id) ∧
    A ∈ (flushQueue net queue).queue := by
  have hq : queue ≠ [] := List.ne_nil_of_mem hA
  refine ⟨?_, ?_, ?_⟩
  · rw [countP_flushQueue net _ queue hq (fun d => rfl)]
    exact countP_outcomes_one net (isSuccessFor B.id) B
      (fun y ht => id_of_success_outcome net y B.id ht)
      (itemOutcome_success_self net B hBt hBok) queue hnd hB
  · intro x hx
    rw [flushQueue_eq_of_ne_nil net queue hq] at hx
    exact flushItems_removes net queue queue B.id
      ⟨B, hB, rfl, removesNow_true_of_ok net B hBok⟩ x hx
  · refine flushQueue_keeps net queue A hA ?_
    intro y hy hid
    rw [eq_of_mem_of_id_eq hnd hy hA hid]
    exact removesNow_false_of_failing net A hAt hAfail

/-- C7 witness: under a network where only the target of itB answers ok,
itB is reported successful once and removed while itA remains queued. -/
theorem c7_witness :
    ((wqueue.map QueueItem.id).Nodup ∧ itA ∈ wqueue ∧ itB ∈ wqueue ∧
        hasReplayTarget itA = true ∧ (netMixed (replayRequestOf itA)).failing = true ∧
        hasReplayTarget itB = true ∧ (netMixed (replayRequestOf itB)).isOk = true) ∧
      (List.countP (isSuccessFor itB.id) (flushQueue netMixed wqueue).msgs = 1 ∧
        (∀ x ∈ (flushQueue netMixed wqueue).queue, x.id ≠ itB.id) ∧
        itA ∈ (flushQueue netMixed wqueue).queue) :=
  ⟨⟨by decide, by decide, by decide, by decide, by decide, by decide, by decide⟩,
    c7_failure_does_not_block_others netMixed wqueue itA itB (by decide) (by decide)
      (by decide) (by decide) (by decide) (by decide) (by decide)⟩

/-- C8: a queued item whose payload declares no replay target is removed
by the flush without any network request being issued for it, and
exactly one sync-item-dequeued message carrying its id is emitted; the
requests a flush issues are exactly the per-item replay requests. -/
theorem c8_passive_item_dequeued_without_network (net : ReplayRequest → FetchOutcome)
    (queue : List QueueItem) (it : QueueItem)
    (hnd : (queue.map QueueItem.id).Nodup) (hmem : it ∈ queue)
    (hnt : hasReplayTarget it = false) :
    (∀ x ∈ (flushQueue net queue).queue, x.id ≠ it.id) ∧
    List.countP (isDequeuedFor it.id) (flushQueue net queue).msgs = 1 ∧
    itemReqs it = [] ∧
    (flushQueue net queue).reqs = (queue.map itemReqs).flatten := by
  have hq : queue ≠ [] := List.ne_nil_of_mem hmem
  refine ⟨?_, ?_, ?_, ?_⟩
  · intro x hx
    rw [flushQueue_eq_of_ne_nil net queue hq] at hx
    exact flushItems_removes net queue queue it.id
      ⟨it, hmem, rfl, removesNow_true_of_passive net it hnt⟩ x hx
  · rw [countP_flushQueue net _ queue hq (fun d => rfl)]
    exact countP_outcomes_one net (isDequeuedFor it.id) it
      (fun y ht => id_of_dequeued_outcome net y it.id ht)
      (itemOutcome_dequeued_self net it hnt) queue hnd hmem
  · unfold itemReqs
    rw [if_neg (by simp [hnt])]
  · rw [flushQueue_eq_of_ne_nil net queue hq]
    exact flushItems_reqs net queue queue

/-- C8 witness: the passive item itP is removed by the flush with no
request issued for it and exactly one sync-item-dequeued message. -/
theorem c8_witness :
    ((wqueue.map QueueItem.id).Nodup ∧ itP ∈ wqueue ∧ hasReplayTarget itP = false) ∧
      ((∀ x ∈ (flushQueue netDown wqueue).queue, x.id ≠ itP.id) ∧
        List.countP (isDequeuedFor itP.id) (flushQueue netDown wqueue).msgs = 1 ∧
        itemReqs itP = [] ∧
        (flushQueue netDown wqueue).reqs = (wqueue.map itemReqs).flatten) :=
  ⟨⟨by decide, by decide, by decide⟩,
    c8_passive_item_dequeued_without_network netDown wqueue itP (by decide) (by decide)
      (by decide)⟩

/-! ## Helper lemmas about the cache model and the dispatchers -/

theorem mem_cachePut {c : Cache} {m u : String} {r : Response} (e : String × Response)
    (he : e ∈ cachePut c m u r) : e ∈ c ∨ e = (u, r) := by
  unfold cachePut at he
  split at he
  · rcases List.mem_append.mp he with h | h
    · exact Or.inl (List.mem_filter.mp h).1
    · exact Or.inr (List.mem_singleton.mp h)
  · exact Or.inl he

theorem cachePut_of_ne_get {c : Cache} {m u : String} {r : Response} (h : m ≠ "GET") :
    cachePut c m u r = c := by
  unfold cachePut
  rw [if_neg h]

theorem cacheMatch_of_ne_get {c : Cache} {m u : String} (h : m ≠ "GET") :
    cacheMatch c m u = none := by
  unfold cacheMatch
  rw [if_neg h]

/-- In the asset branch the cache afterwards is the original cache, plus
the network response stored iff it arrived with status 200. -/
theorem handleFetch_cache_asset (net : Request → Option Response) (cache : Cache)
    (req : Request) (hm : req.method = "GET")
    (hnav : strIncludes req.accept "text/html" = false) :
    (handleFetch net cache req).2 =
      match net req with
      | some networkResp =>
        if networkResp.status = 200 then cachePut cache req.method req.url networkResp else cache
      | none => cache := by
  unfold handleFetch
  rw [if_neg (by simp [hm]), if_neg (by simp [hnav])]
  cases hcm : cacheMatch cache req.method req.url with
  | none =>
    cases hn : net req with
    | none => rfl
    | some resp => rfl
  | some r =>
    cases hn : net req with
    | none => rfl
    | some resp => rfl

/-! ## Claim theorems for the fetch strategy dispatcher -/

/-- C3 counterexample: the navigation branch of the main fetch handler
stores the network response without any status check; a 404 navigation
response is written into the cache. -/
theorem c3_cex :
    Response.ok resp404 = false ∧
    (handleFetch (fun _ => some resp404) [] navReq).2 = [("/page", resp404)] := by
  constructor
  · decide
  · decide

/-- C3 amended: outside the navigation class (the asset, cache-first
branch, and the non-GET pass-through), every entry of the cache after
handling was already present or has status 200; the navigation branch,
by contrast, stores whatever response the network returned. -/
theorem c3_asset_branch_stores_only_200 (net : Request → Option Response) (cache : Cache)
    (req : Request) (hnav : strIncludes req.accept "text/html" = false) :
    ∀ e ∈ (handleFetch net cache req).2, e ∈ cache ∨ e.2.status = 200 := by
  intro e he
  by_cases hm : req.method = "GET"
  · rw [handleFetch_cache_asset net cache req hm hnav] at he
    cases hn : net req with
    | none => rw [hn] at he; exact Or.inl he
    | some resp =>
      rw [hn] at he
      change e ∈ if resp.status = 200 then cachePut cache req.method req.url resp else cache at he
      by_cases hs : resp.status = 200
      · rw [if_pos hs] at he
        rcases mem_cachePut e he with h | h
        · exact Or.inl h
        · right
          rw [h]
          exact hs
      · rw [if_neg hs] at he
        exact Or.inl he
  · have hpass : (handleFetch net cache req).2 = cache := by
      unfold handleFetch
      rw [if_pos hm]
    rw [hpass] at he
    exact Or.inl he

/-- C3 witness: a 301 asset response is not stored; the cache keeps only
its previous entries or entries with status 200. -/
theorem c3_witness :
    (strIncludes assetReq.accept "text/html" = false) ∧
      (∀ e ∈ (handleFetch (fun _ => some { status := 301, body := "moved" })
          [("/assets/app.css", cachedCss)] assetReq).2,
        e ∈ [("/assets/app.css", cachedCss)] ∨ e.2.status = 200) :=
  ⟨by decide,
    c3_asset_branch_stores_only_200 (fun _ => some { status := 301, body := "moved" })
      [("/assets/app.css", cachedCss)] assetReq (by decide)⟩

/-- C4 counterexample: the part_002 fetch handler answers a POST request
(respondWith is called and a response delivered), contradicting the
claim that non-GET requests are never answered by the dispatcher. -/
theorem c4_cex :
    postReq.method ≠ "GET" ∧
    (handleFetch002 (fun _ => some resp200) [] postReq).1 = .response resp200 := by
  constructor
  · decide
  · decide

/-- C4 amended: in the main handler a non-GET request passes through
untouched with the cache unchanged; in the part_002 variant a non-GET
request is intercepted and answered, but the cache is still unchanged
because Cache.put rejects non-GET requests. -/
theorem c4_non_get_passthrough_and_uncached (net : Request → Option Response)
    (cache : Cache) (req : Request) (h : req.method ≠ "GET") :
    handleFetch net cache req = (.passthrough, cache) ∧
    (handleFetch002 net cache req).2 = cache ∧
    (handleFetch002 net cache req).1 ≠ .passthrough := by
  refine ⟨?_, ?_, ?_⟩
  · unfold handleFetch
    rw [if_pos h]
  · unfold handleFetch002
    split
    · cases hn : net req with
      | some res => simp [cachePut, h]
      | none =>
        cases hc : cacheMatch cache "GET" "/index.html" with
        | some r => rfl
        | none => rfl
    · rw [cacheMatch_of_ne_get h]
      cases hn : net req with
      | some res => simp [cachePut, h]
      | none => rfl
  · unfold handleFetch002
    split
    · cases hn : net req with
      | some res => simp
      | none =>
        cases hc : cacheMatch cache "GET" "/index.html" with
        | some r => simp
        | none => simp
    · rw [cacheMatch_of_ne_get h]
      cases hn : net req with
      | some res => simp
      | none => simp

/-- C4 witness: for a concrete POST request both dispatcher behaviours
hold: pass-through in the main handler and an unchanged cache in the
part_002 handler. -/
theorem c4_witness :
    (postReq.method ≠ "GET") ∧
      (handleFetch (fun _ => some resp200) [("/page", cachedPage)] postReq =
          (.passthrough, [("/page", cachedPage)]) ∧
        (handleFetch002 (fun _ => some resp200) [("/page", cachedPage)] postReq).2 =
          [("/page", cachedPage)] ∧
        (handleFetch002 (fun _ => some resp200) [("/page", cachedPage)] postReq).1 ≠
          .passthrough) :=
  ⟨by decide,
    c4_non_get_passthrough_and_uncached (fun _ => some resp200) [("/page", cachedPage)]
      postReq (by decide)⟩

/-- C5: for an asset (non-navigation) GET request whose cache entry
exists, the answer is exactly the cached response, whatever the network
does; the background fetch never changes the delivered response. -/
theorem c5_cached_asset_served_regardless_of_network (net : Request → Option Response)
    (cache : Cache) (req : Request) (r : Response)
    (hm : req.method = "GET") (hnav : strIncludes req.accept "text/html" = false)
    (hc : cacheMatch cache req.method req.url = some r) :
    (handleFetch net cache req).1 = .response r := by
  unfold handleFetch
  rw [if_neg (by simp [hm]), if_neg (by simp [hnav]), hc]
  cases hn : net req with
  | none => rfl
  | some resp => rfl

/-- C5 witness: with a non-200 network outcome the cached css is still
the answer delivered for the asset request. -/
theorem c5_witness :
    (assetReq.method = "GET" ∧ strIncludes assetReq.accept "text/html" = false ∧
        cacheMatch [("/assets/app.css", cachedCss)] assetReq.method assetReq.url =
          some cachedCss) ∧
      (handleFetch (fun _ => some resp404) [("/assets/app.css", cachedCss)] assetReq).1 =
        .response cachedCss :=
  ⟨⟨by decide, by decide, by decide⟩,
    c5_cached_asset_served_regardless_of_network (fun _ => some resp404)
      [("/assets/app.css", cachedCss)] assetReq cachedCss (by decide) (by decide) (by decide)⟩

/-- C6 counterexample: a navigation request whose own cache entry exists
but whose network fetch fails is answered with a rejected promise, not
with the cached entry, a fallback resource or a synthesized response:
the main navigation branch only consults the cached /index.html. -/
theorem c6_cex :
    cacheMatch [("/page", cachedPage)] "GET" navReq.url = some cachedPage ∧
    (handleFetch (fun _ => none) [("/page", cachedPage)] navReq).1 =
      .rejected "no-match" := by
  constructor
  · decide
  · decide

/-- C6 amended: on network failure the main navigation branch falls back
only to the cached /index.html and otherwise rejects the request, while
the part_001 default branch always answers with some response (network,
cached entry, synthesized offline page for navigations, or a 504). -/
theorem c6_nav_fallback_chain (net : Request → Option Response) (cache : Cache)
    (req : Request) (hm : req.method = "GET")
    (hnav : strIncludes req.accept "text/html" = true) (hfail : net req = none) :
    (handleFetch net cache req).1 =
      (match cacheMatch cache "GET" "/index.html" with
       | some r => FetchResult.response r
       | none => FetchResult.rejected "no-match") ∧
    ∀ (net2 : Request → Option Response) (shell runtime : Cache) (req2 : Request),
      ∃ r : Response, (defaultBranch001 net2 shell runtime req2).1 = .response r := by
  constructor
  · unfold handleFetch
    rw [if_neg (by simp [hm]), if_pos hnav, hfail]
    cases hidx : cacheMatch cache "GET" "/index.html" with
    | some r => rfl
    | none => rfl
  · intro net2 shell runtime req2
    unfold defaultBranch001
    cases hn : net2 req2 with
    | some resp =>
      refine ⟨resp, ?_⟩
      show (if (decide (req2.mode = "navigate") && resp.ok) = true then
          (FetchResult.response resp, cachePut shell req2.method req2.url resp)
        else (FetchResult.response resp, shell)).1 = FetchResult.response resp
      split <;> rfl
    | none =>
      cases h1 : cacheMatch shell req2.method req2.url with
      | some c0 => exact ⟨c0, rfl⟩
      | none =>
        cases h2 : cacheMatch runtime req2.method req2.url with
        | some c1 => exact ⟨c1, rfl⟩
        | none =>
          by_cases hmode : req2.mode = "navigate"
          · refine ⟨offlineHtml, ?_⟩
            show (if req2.mode = "navigate" then (FetchResult.response offlineHtml, shell)
              else (FetchResult.response { status := 504, body := "" }, shell)).1 =
                FetchResult.response offlineHtml
            rw [if_pos hmode]
          · refine ⟨{ status := 504, body := "" }, ?_⟩
            show (if req2.mode = "navigate" then (FetchResult.response offlineHtml, shell)
              else (FetchResult.response { status := 504, body := "" }, shell)).1 =
                FetchResult.response { status := 504, body := "" }
            rw [if_neg hmode]

/-- C6 witness: with the network down and /index.html cached, the main
navigation branch serves the cached /index.html; and the part_001
default branch always produces a response. -/
theorem c6_witness :
    (navReq.method = "GET" ∧ strIncludes navReq.accept "text/html" = true ∧
        (fun (_ : Request) => (none : Option Response)) navReq = none) ∧
      ((handleFetch (fun _ => none) [("/index.html", cachedPage)] navReq).1 =
          (match cacheMatch [("/index.html", cachedPage)] "GET" "/index.html" with
           | some r => FetchResult.response r
           | none => FetchResult.rejected "no-match") ∧
        ∀ (net2 : Request → Option Response) (shell runtime : Cache) (req2 : Request),
          ∃ r : Response, (defaultBranch001 net2 shell runtime req2).1 = .response r) :=
  ⟨⟨by decide, by decide, rfl⟩,
    c6_nav_fallback_chain (fun _ => none) [("/index.html", cachedPage)] navReq
      (by decide) (by decide) rfl⟩

/-! ## Claim theorems for enqueue ids and sync triggers -/

/-- C9 counterexample: two save-state enqueues in the same millisecond
receive the identical id, and the second put silently overwrites the
first item, which is then absent from the store. -/
theorem c9_cex :
    (mkStateItem 1000 statePayloadA).id = (mkStateItem 1000 statePayloadB).id ∧
    mkStateItem 1000 statePayloadA ≠ mkStateItem 1000 statePayloadB ∧
    idbAdd (idbAdd [] (mkStateItem 1000 statePayloadA)) (mkStateItem 1000 statePayloadB) =
      [mkStateItem 1000 statePayloadB] ∧
    mkStateItem 1000 statePayloadA ∉
      idbAdd (idbAdd [] (mkStateItem 1000 statePayloadA)) (mkStateItem 1000 statePayloadB) := by
  refine ⟨by decide, by decide, by decide, by decide⟩

/-- C9 amended: an enqueue whose assigned id differs from every stored
id preserves all stored items (no overwrite); but ids are derived from
the enqueue timestamp, so two save-state enqueues sharing a timestamp
share one id regardless of their payloads. -/
theorem c9_fresh_id_preserves_store (store : List QueueItem) (item : QueueItem)
    (hfresh : ∀ x ∈ store, x.id ≠ item.id) :
    idbAdd store item = store ++ [item] ∧
    ∀ (t : Nat) (s1 s2 : SyncPayload), (mkStateItem t s1).id = (mkStateItem t s2).id := by
  constructor
  · unfold idbAdd
    have hany : store.any (fun x => x.id == item.id) = false := by
      rw [List.any_eq_false]
      intro x hx
      simp [hfresh x hx]
    rw [if_neg (by simp [hany])]
  · intro t s1 s2
    rfl

/-- C9 witness: adding an item with a fresh id to a store keeps the
stored item, and same-timestamp save-state items share one id. -/
theorem c9_witness :
    (∀ x ∈ [itA], x.id ≠ itB.id) ∧
      (idbAdd [itA] itB = [itA] ++ [itB] ∧
        ∀ (t : Nat) (s1 s2 : SyncPayload), (mkStateItem t s1).id = (mkStateItem t s2).id) :=
  ⟨by decide, c9_fresh_id_preserves_store [itA] itB (by decide)⟩

/-- C10: a registerSync message acknowledges any nonempty tag with
sync-registered, yet a sync event whose tag does not start with
lexi-sync leaves the queue untouched and broadcasts nothing: only
lexi-sync tags drain the queue. -/
theorem c10_only_lexi_sync_tags_flush (net : ReplayRequest → FetchOutcome)
    (queue : List QueueItem) (tag : String)
    (hne : tag ≠ "") (hno : strStarts tag "lexi-sync" = false) :
    handleRegisterSync tag true = [.syncRegistered tag] ∧
    handleSyncEvent net queue tag = (queue, []) := by
  constructor
  · unfold handleRegisterSync
    rw [if_neg hne]
    rfl
  · unfold handleSyncEvent
    rw [if_neg hne, if_neg (by simp [hno])]

/-- C10 witness: a custom tag is acknowledged at registration but its
sync event does not drain the queue. -/
theorem c10_witness :
    ("my-custom-tag" ≠ "" ∧ strStarts "my-custom-tag" "lexi-sync" = false) ∧
      (handleRegisterSync "my-custom-tag" true = [.syncRegistered "my-custom-tag"] ∧
        handleSyncEvent netDown wqueue "my-custom-tag" = (wqueue, [])) :=
  ⟨⟨by decide, by decide⟩,
    c10_only_lexi_sync_tags_flush netDown wqueue "my-custom-tag" (by decide) (by decide)⟩

end LexiSW
